import Mathlib

/-!
Shallow embedding of `pearl/utils/scripts/benchmark.py`:
the run launcher (`run` / `evaluate`), the configuration-resolution portion
of `evaluate_single`, and the aggregation arithmetic of `generate_one_plot`.
-/

namespace Benchmark

/-! ## Data model -/

/-- The action space of the environment, exposing `n` and `action_dim`. -/
structure ActionSpace where
  n : Nat
  action_dim : Nat
  deriving DecidableEq

/-- A gym environment as read by `evaluate_single`: `observation_space.shape`
and `action_space`. -/
structure Env where
  observation_shape : List Nat
  action_space : ActionSpace
  deriving DecidableEq

/-- Value of `env.observation_space.shape[0]`. -/
def obsDim (env : Env) : Nat := env.observation_shape.getD 0 0

/-- Value of `env.observation_space.shape[1]`. -/
def obsShape1 (env : Env) : Nat := env.observation_shape.getD 1 0

/-- Value of `env.observation_space.shape[2]`. -/
def obsShape2 (env : Env) : Nat := env.observation_shape.getD 2 0

/-- Argument bundle for an action-representation module.  Only the two keys
that `evaluate_single` injects are given schema status; `none` models key
absence. -/
structure ActionRepArgs where
  max_number_actions : Option Nat := none
  representation_dim : Option Nat := none
  deriving DecidableEq

/-- An instantiated action-representation module: the class it was built from,
the argument bundle it received, and the `representation_dim` attribute the
instance exposes.  The module classes themselves are external collaborators,
so instantiation is a parameter (`mkARM`) of the resolution function. -/
structure ActionRepModuleInst where
  className : String
  args : ActionRepArgs
  representation_dim : Nat
  deriving DecidableEq

/-- Argument bundle of a history-summarization module.  `history_length` and
`hidden_dim` are supplied by the method descriptor; `observation_dim` and
`action_dim` are injected by `evaluate_single` (absent before that). -/
structure HistSummArgs where
  history_length : Nat := 1
  hidden_dim : Nat := 0
  observation_dim : Option Nat := none
  action_dim : Option Nat := none
  deriving DecidableEq

/-- An instantiated history-summarization module. -/
structure HistSummModuleInst where
  className : String
  args : HistSummArgs
  deriving DecidableEq

/-- Network classes compared by identity in `evaluate_single` (lines 227-314),
plus `other` for any network class that is not one of them (e.g. the Dueling
or ensemble networks, which are only constructed, never identity-tested). -/
inductive NetworkModule where
  | CNNQValueNetwork
  | CNNQValueMultiHeadNetwork
  | CNNValueNetwork
  | CNNActorNetwork
  | other (clsName : String)
  deriving DecidableEq

/-- Extra keyword arguments splatted from `method["network_args"]` and
friends; never inspected by the resolver, so modelled as a key-value list. -/
abbrev ExtraArgs := List (String × Nat)

/-- A constructed network instance, remembering which constructor call built
it and with which derived dimensions. -/
inductive NetworkInstance where
  /-- CNN Q-networks: `input_width/height/channels`, `action_dim`, `output_dim`. -/
  | cnn (module : NetworkModule)
      (input_width input_height input_channels_count action_dim output_dim : Nat)
      (extra : ExtraArgs)
  /-- CNN value/actor networks: no `action_dim` keyword. -/
  | cnnNoAction (module : NetworkModule)
      (input_width input_height input_channels_count output_dim : Nat)
      (extra : ExtraArgs)
  /-- Networks built from `state_dim`/`action_dim` keywords
  (the DuelingDQN and BootstrappedDQN branches). -/
  | byStateAction (module : NetworkModule) (state_dim action_dim : Nat)
      (extra : ExtraArgs)
  /-- `TwinCritic` wrapping two critic network instances. -/
  | twinCritic (network_instance_1 network_instance_2 : NetworkInstance)
  deriving DecidableEq

/-- An instantiated exploration module, possibly wrapped. -/
inductive ExplorationModuleInst where
  | base (clsName : String) (args : ExtraArgs)
  | wrapped (wrapperName : String) (em : ExplorationModuleInst) (args : ExtraArgs)
  deriving DecidableEq

/-- The `policy_learner_args` dictionary: every key that
`evaluate_single` reads or writes, with `none` modelling key absence. -/
structure PolicyLearnerArgs where
  state_dim : Option Nat := none
  exploration_module : Option ExplorationModuleInst := none
  action_representation_module : Option ActionRepModuleInst := none
  network_instance : Option NetworkInstance := none
  critic_network_instance : Option NetworkInstance := none
  actor_network_instance : Option NetworkInstance := none
  q_ensemble_network : Option NetworkInstance := none
  actor_network_type : Option String := none
  action_space : Option ActionSpace := none
  deriving DecidableEq

/-- The `agent_args` dictionary (re-created by `evaluate` as
`{"device_id": ...}`, then extended by `evaluate_single`). -/
structure AgentArgs where
  device_id : Int := 0
  replay_buffer : Option (String × ExtraArgs) := none
  safety_module : Option (String × ExtraArgs) := none
  history_summarization_module : Option HistSummModuleInst := none
  deriving DecidableEq

/-- A method descriptor.  Module classes are identified by their `__name__`
string (which is what `evaluate_single` compares); `none` models key
absence. -/
structure Method where
  name : String
  policy_learner : String := ""
  policy_learner_args : PolicyLearnerArgs := {}
  agent_args : AgentArgs := {}
  exploration_module : Option String := none
  exploration_module_args : Option ExtraArgs := none
  exploration_module_wrapper : Option String := none
  exploration_module_wrapper_args : ExtraArgs := []
  replay_buffer : Option String := none
  replay_buffer_args : Option ExtraArgs := none
  safety_module : Option String := none
  safety_module_args : Option ExtraArgs := none
  action_representation_module : Option String := none
  action_representation_module_args : Option ActionRepArgs := none
  history_summarization_module : Option String := none
  history_summarization_module_args : Option HistSummArgs := none
  network_module : Option NetworkModule := none
  network_args : Option ExtraArgs := none
  critic_network_module : Option NetworkModule := none
  critic_network_args : ExtraArgs := []
  use_twin_critic : Bool := false
  actor_network_module : Option NetworkModule := none
  actor_network_args : ExtraArgs := []
  actor_network_type : Option String := none
  learn_every_k_steps : Nat := 1
  learn_after_episode : Bool := false
  deriving DecidableEq

/-! ## Configuration resolution (`evaluate_single`, lines 133-341) -/

/-- Mutable state threaded through resolution: the (mutated) method
descriptor, `policy_learner_args`, and `agent_args`. -/
structure ResolveState where
  method : Method
  policy_learner_args : PolicyLearnerArgs
  agent_args : AgentArgs
  deriving DecidableEq

/-- Initial state: `policy_learner_args = method["policy_learner_args"]`,
`agent_args = method["agent_args"]`. -/
def initState (method : Method) : ResolveState :=
  { method := method
    policy_learner_args := method.policy_learner_args
    agent_args := method.agent_args }

/-- Line 138: `policy_learner_args["state_dim"] = env.observation_space.shape[0]`. -/
def stepStateDim (env : Env) (s : ResolveState) : ResolveState :=
  { s with policy_learner_args := { s.policy_learner_args with state_dim := some (obsDim env) } }

/-- Lines 140-150: instantiate the exploration module, optionally wrapping it. -/
def stepExploration (s : ResolveState) : ResolveState :=
  match s.method.exploration_module, s.method.exploration_module_args with
  | some cls, some args =>
    let em := ExplorationModuleInst.base cls args
    let em :=
      match s.method.exploration_module_wrapper with
      | some w => ExplorationModuleInst.wrapped w em s.method.exploration_module_wrapper_args
      | none => em
    { s with policy_learner_args := { s.policy_learner_args with exploration_module := some em } }
  | _, _ => s

/-- Lines 151-154: instantiate the replay buffer into `agent_args`. -/
def stepReplayBuffer (s : ResolveState) : ResolveState :=
  match s.method.replay_buffer, s.method.replay_buffer_args with
  | some cls, some args =>
    { s with agent_args := { s.agent_args with replay_buffer := some (cls, args) } }
  | _, _ => s

/-- Lines 155-158: instantiate the safety module into `agent_args`. -/
def stepSafetyModule (s : ResolveState) : ResolveState :=
  match s.method.safety_module, s.method.safety_module_args with
  | some cls, some args =>
    { s with agent_args := { s.agent_args with safety_module := some (cls, args) } }
  | _, _ => s

/-- Lines 159-185: resolve the action-representation module.  `mkARM` models
external class instantiation (class `__name__` and argument bundle to
instance); `defaultARM` models `IdentityActionRepresentationModule()`
built with no arguments. -/
def stepActionRep (mkARM : String → ActionRepArgs → ActionRepModuleInst)
    (defaultARM : ActionRepModuleInst) (env : Env) (s : ResolveState) : ResolveState :=
  match s.method.action_representation_module, s.method.action_representation_module_args with
  | some cls, some args =>
    let args :=
      if cls = "OneHotActionTensorRepresentationModule" then
        { args with max_number_actions := some env.action_space.n }
      else args
    let args :=
      if cls = "IdentityActionRepresentationModule" then
        { args with max_number_actions := some env.action_space.n
                    representation_dim := some env.action_space.action_dim }
      else args
    { s with
      method := { s.method with action_representation_module_args := some args }
      policy_learner_args :=
        { s.policy_learner_args with action_representation_module := some (mkARM cls args) } }
  | _, _ =>
    { s with policy_learner_args :=
        { s.policy_learner_args with action_representation_module := some defaultARM } }

/-- Lines 198-202 / 214-218: the conditional expression
`policy_learner_args["action_representation_module"].representation_dim
if "action_representation_module" in policy_learner_args
else env.action_space.action_dim`. -/
def histActionDim (env : Env) (pla : PolicyLearnerArgs) : Nat :=
  match pla.action_representation_module with
  | some m => m.representation_dim
  | none => env.action_space.action_dim

/-- Lines 187-225: resolve the history-summarization module, injecting
`observation_dim`/`action_dim` into its argument bundle and overwriting
`state_dim` for the two recognized variants. -/
def stepHistorySummarization (env : Env) (s : ResolveState) : ResolveState :=
  match s.method.history_summarization_module, s.method.history_summarization_module_args with
  | some cls, some args =>
    if cls = "StackingHistorySummarizationModule" then
      let args := { args with observation_dim := some (obsDim env)
                              action_dim := some (histActionDim env s.policy_learner_args) }
      { method := { s.method with history_summarization_module_args := some args }
        policy_learner_args :=
          { s.policy_learner_args with
            state_dim := some ((args.observation_dim.getD 0 + args.action_dim.getD 0)
              * args.history_length) }
        agent_args :=
          { s.agent_args with history_summarization_module := some ⟨cls, args⟩ } }
    else if cls = "LSTMHistorySummarizationModule" then
      let args := { args with observation_dim := some (obsDim env)
                              action_dim := some (histActionDim env s.policy_learner_args) }
      { method := { s.method with history_summarization_module_args := some args }
        policy_learner_args :=
          { s.policy_learner_args with state_dim := some args.hidden_dim }
        agent_args :=
          { s.agent_args with history_summarization_module := some ⟨cls, args⟩ } }
    else
      { s with agent_args :=
          { s.agent_args with history_summarization_module := some ⟨cls, args⟩ } }
  | _, _ => s

/-- Value of `policy_learner_args["action_representation_module"].representation_dim`
as read by the network-construction branches (key presence is an invariant
there; see `action_rep_module_always_present`). -/
def armRepDim (pla : PolicyLearnerArgs) : Nat :=
  (pla.action_representation_module.map (fun m => m.representation_dim)).getD 0

/-- Lines 227-246: construct `network_instance` for the CNN Q-network classes. -/
def stepNetworkModule (env : Env) (s : ResolveState) : ResolveState :=
  match s.method.network_module with
  | some nm =>
    if nm = NetworkModule.CNNQValueNetwork ∨ nm = NetworkModule.CNNQValueMultiHeadNetwork then
      let ad := armRepDim s.policy_learner_args
      { s with policy_learner_args :=
          { s.policy_learner_args with
            network_instance := some (NetworkInstance.cnn nm (obsShape2 env) (obsShape1 env)
              (obsDim env) ad (if nm = NetworkModule.CNNQValueNetwork then 1 else ad)
              (s.method.network_args.getD [])) } }
    else s
  | none => s

/-- Lines 247-286: construct `critic_network_instance` for the CNN Q-network
classes, wrapped in a `TwinCritic` when `use_twin_critic` is set. -/
def stepCriticNetworkModule (env : Env) (s : ResolveState) : ResolveState :=
  match s.method.critic_network_module with
  | some cm =>
    if cm = NetworkModule.CNNQValueNetwork ∨ cm = NetworkModule.CNNQValueMultiHeadNetwork then
      let action_dim := armRepDim s.policy_learner_args
      let output_dim := if cm = NetworkModule.CNNQValueNetwork then 1 else action_dim
      let inst := NetworkInstance.cnn cm (obsShape2 env) (obsShape1 env) (obsDim env)
        action_dim output_dim s.method.critic_network_args
      let inst := if s.method.use_twin_critic then NetworkInstance.twinCritic inst inst else inst
      { s with policy_learner_args :=
          { s.policy_learner_args with critic_network_instance := some inst } }
    else s
  | none => s

/-- Lines 288-300: construct `critic_network_instance` for `CNNValueNetwork`. -/
def stepCriticValueNetwork (env : Env) (s : ResolveState) : ResolveState :=
  if s.method.critic_network_module = some NetworkModule.CNNValueNetwork then
    { s with policy_learner_args :=
        { s.policy_learner_args with
          critic_network_instance := some (NetworkInstance.cnnNoAction
            NetworkModule.CNNValueNetwork (obsShape2 env) (obsShape1 env) (obsDim env) 1
            s.method.critic_network_args) } }
  else s

/-- Lines 302-314: construct `actor_network_instance` for `CNNActorNetwork`. -/
def stepActorNetwork (env : Env) (s : ResolveState) : ResolveState :=
  if s.method.actor_network_module = some NetworkModule.CNNActorNetwork then
    { s with policy_learner_args :=
        { s.policy_learner_args with
          actor_network_instance := some (NetworkInstance.cnnNoAction
            NetworkModule.CNNActorNetwork (obsShape2 env) (obsShape1 env) (obsDim env)
            (armRepDim s.policy_learner_args) s.method.actor_network_args) } }
  else s

/-- Lines 316-322: name equal to `"DuelingDQN"` builds `network_instance`
from the raw observation dimension and raw action count; the `assert` on
key presence is modelled by `Option`. -/
def stepDuelingDQN (env : Env) (s : ResolveState) : Option ResolveState :=
  if s.method.name = "DuelingDQN" then
    match s.method.network_module, s.method.network_args with
    | some nm, some nargs =>
      some { s with policy_learner_args :=
          { s.policy_learner_args with
            network_instance := some (NetworkInstance.byStateAction nm (obsDim env)
              env.action_space.n nargs) } }
    | _, _ => none
  else some s

/-- Lines 323-330: name equal to `"BootstrappedDQN"` builds
`q_ensemble_network` from the raw dimensions and deletes `state_dim`. -/
def stepBootstrappedDQN (env : Env) (s : ResolveState) : Option ResolveState :=
  if s.method.name = "BootstrappedDQN" then
    match s.method.network_module, s.method.network_args with
    | some nm, some nargs =>
      some { s with policy_learner_args :=
          { s.policy_learner_args with
            q_ensemble_network := some (NetworkInstance.byStateAction nm (obsDim env)
              env.action_space.n nargs)
            state_dim := none } }
    | _, _ => none
  else some s

/-- Lines 332-333: a name containing `"dynamic"` forwards `actor_network_type`. -/
def stepDynamic (s : ResolveState) : ResolveState :=
  if List.IsInfix "dynamic".toList s.method.name.toList then
    { s with policy_learner_args :=
        { s.policy_learner_args with actor_network_type := s.method.actor_network_type } }
  else s

/-- Line 335: `policy_learner_args["action_space"] = env.action_space`. -/
def stepActionSpace (env : Env) (s : ResolveState) : ResolveState :=
  { s with policy_learner_args :=
      { s.policy_learner_args with action_space := some env.action_space } }

/-- Resolution state before the action-representation step (lines 133-158). -/
def preActionRep (env : Env) (method : Method) : ResolveState :=
  stepSafetyModule (stepReplayBuffer (stepExploration (stepStateDim env (initState method))))

/-- Resolution state after the history-summarization step (line 225),
i.e. lines 133-225 of `evaluate_single`. -/
def resolveThroughHistory (mkARM : String → ActionRepArgs → ActionRepModuleInst)
    (defaultARM : ActionRepModuleInst) (env : Env) (method : Method) : ResolveState :=
  stepHistorySummarization env (stepActionRep mkARM defaultARM env (preActionRep env method))

/-- The four network-construction steps (lines 227-314) in source order. -/
def netSteps (env : Env) (s : ResolveState) : ResolveState :=
  stepActorNetwork env (stepCriticValueNetwork env
    (stepCriticNetworkModule env (stepNetworkModule env s)))

/-- The full configuration-resolution portion of `evaluate_single`
(lines 133-335); `none` models a failed `assert`. -/
def resolveMethod (mkARM : String → ActionRepArgs → ActionRepModuleInst)
    (defaultARM : ActionRepModuleInst) (env : Env) (method : Method) : Option ResolveState :=
  match stepDuelingDQN env (netSteps env (resolveThroughHistory mkARM defaultARM env method)) with
  | none => none
  | some s =>
    match stepBootstrappedDQN env s with
    | none => none
    | some s => some (stepActionSpace env (stepDynamic s))

/-! ## Run launcher (`run` / `evaluate`, lines 76-119) -/

/-- An experiment descriptor, with the keys read by `evaluate` and
`generate_one_plot`. -/
structure Experiment where
  exp_name : String := ""
  env_name : String
  num_runs : Nat
  num_episodes : Option Nat := none
  num_steps : Option Nat := none
  record_period : Nat
  print_every_x_episodes : Option Nat := none
  print_every_x_steps : Option Nat := none
  methods : List Method
  device_id : Int := 0
  deriving DecidableEq

/-- The argument tuple a spawned process is bound to (lines 104-116). -/
structure ProcArgs where
  env_name : String
  method : Method
  run_idx : Nat
  num_episodes : Option Nat
  num_steps : Option Nat
  print_every_x_episodes : Option Nat
  print_every_x_steps : Option Nat
  record_period : Nat
  deriving DecidableEq

/-- The process `evaluate` creates for method `m` and run index `i` of
experiment `e`; line 102 first overwrites the `agent_args` of the descriptor
with `{"device_id": ...}`. -/
def bindProc (e : Experiment) (m : Method) (i : Nat) : ProcArgs :=
  { env_name := e.env_name
    method := { m with agent_args := { device_id := e.device_id } }
    run_idx := i
    num_episodes := e.num_episodes
    num_steps := e.num_steps
    print_every_x_episodes := e.print_every_x_episodes
    print_every_x_steps := e.print_every_x_steps
    record_period := e.record_period }

/-- Lines 90-119: the processes `evaluate` appends for one experiment, in
loop order (`for method in methods: for run_idx in range(num_runs)`). -/
def evaluate (e : Experiment) : List ProcArgs :=
  e.methods.flatMap (fun m => (List.range e.num_runs).map (bindProc e m))

/-- An observable launcher event: a process is started or joined. -/
inductive ProcEvent where
  | start (p : ProcArgs)
  | join (p : ProcArgs)
  deriving DecidableEq

/-- Lines 76-87: `run` asserts the experiment list is non-empty (`none` on
assertion failure), collects every process, starts them all, then joins
them all; the return value is the ordered event trace. -/
def run (experiments : List Experiment) : Option (List ProcEvent) :=
  if experiments.length > 0 then
    let ps := experiments.flatMap evaluate
    some (ps.map ProcEvent.start ++ ps.map ProcEvent.join)
  else none

/-! ## Aggregation (`generate_one_plot`, lines 370-415) -/

/-- The per-run file-loading loop (lines 380-389) over a list of run
indices: present files are appended to the data list, absent files are
recorded as logged-and-skipped notices. -/
def loadLoop (files : Nat → Option (List Rat)) :
    List Nat → List (List Rat) × List Nat → List (List Rat) × List Nat
  | [], acc => acc
  | r :: rs, acc =>
    match files r with
    | some d => loadLoop files rs (acc.1 ++ [d], acc.2)
    | none => loadLoop files rs (acc.1, acc.2 ++ [r])

/-- Lines 380-389: `for run in range(num_runs): try load / except log and
continue`.  First component: the stacked data rows; second component: the
run indices for which a missing-file notice was printed. -/
def loadRuns (files : Nat → Option (List Rat)) (num_runs : Nat) :
    List (List Rat) × List Nat :=
  loadLoop files (List.range num_runs) ([], [])

/-- The stacked per-run data for one (method, metric): `np.array(data)`. -/
def aggregateData (files : Nat → Option (List Rat)) (num_runs : Nat) : List (List Rat) :=
  (loadRuns files num_runs).1

/-- Shape of `np.array(data).mean(axis=0)`: a 0-d scalar (empty shape) when
`data` is empty, else a vector of the row length. -/
def meanShape (data : List (List Rat)) : List Nat :=
  match data with
  | [] => []
  | r :: _ => [r.length]

/-- Column `i` of the stacked data. -/
def npColumn (data : List (List Rat)) (i : Nat) : List Rat :=
  data.map (fun r => r.getD i 0)

/-- Pointwise `data.mean(axis=0)` (line 391): each entry is the column sum
divided by the number of stacked runs. -/
def npMeanAxis0 (data : List (List Rat)) : List Rat :=
  (List.range ((meanShape data).getD 0 0)).map
    (fun i => (npColumn data i).sum / (data.length : Rat))

/-- Population variance of column `i`, the quantity under the square root in
`np.std(axis=0)`. -/
def colVariance (data : List (List Rat)) (i : Nat) : Rat :=
  let m := (npColumn data i).sum / (data.length : Rat)
  ((npColumn data i).map (fun x => (x - m) ^ 2)).sum / (data.length : Rat)

/-- Pointwise `data.std(axis=0)` (line 392). -/
noncomputable def npStdAxis0 (data : List (List Rat)) : List Real :=
  (List.range ((meanShape data).getD 0 0)).map
    (fun i => Real.sqrt (colVariance data i))

/-- Line 392: `std_error = data.std(axis=0) / np.sqrt(num_runs)` — the
denominator is the configured run count, not the number of rows found. -/
noncomputable def stdErrorVec (data : List (List Rat)) (num_runs : Nat) : List Real :=
  (npStdAxis0 data).map (fun sd => sd / Real.sqrt (num_runs : Real))

/-- Line 393: `x_list = record_period * np.arange(mean.shape[0])`; `none`
models the `IndexError` raised by `mean.shape[0]` when the mean is a 0-d
scalar (no run file was found). -/
def xListOpt (record_period : Nat) (data : List (List Rat)) : Option (List Nat) :=
  ((meanShape data).get? 0).map (fun L => (List.range L).map (fun i => record_period * i))

/-! ## Step lemmas for the configuration resolver -/

theorem stepStateDim_method (env : Env) (s : ResolveState) :
    (stepStateDim env s).method = s.method := rfl

theorem stepStateDim_state_dim (env : Env) (s : ResolveState) :
    (stepStateDim env s).policy_learner_args.state_dim = some (obsDim env) := rfl

theorem stepStateDim_arm (env : Env) (s : ResolveState) :
    (stepStateDim env s).policy_learner_args.action_representation_module
      = s.policy_learner_args.action_representation_module := rfl

theorem stepExploration_method (s : ResolveState) :
    (stepExploration s).method = s.method := by
  unfold stepExploration
  cases h1 : s.method.exploration_module <;> cases h2 : s.method.exploration_module_args <;> simp

theorem stepExploration_state_dim (s : ResolveState) :
    (stepExploration s).policy_learner_args.state_dim = s.policy_learner_args.state_dim := by
  unfold stepExploration
  cases h1 : s.method.exploration_module <;> cases h2 : s.method.exploration_module_args <;> simp

theorem stepExploration_arm (s : ResolveState) :
    (stepExploration s).policy_learner_args.action_representation_module
      = s.policy_learner_args.action_representation_module := by
  unfold stepExploration
  cases h1 : s.method.exploration_module <;> cases h2 : s.method.exploration_module_args <;> simp

theorem stepReplayBuffer_method (s : ResolveState) :
    (stepReplayBuffer s).method = s.method := by
  unfold stepReplayBuffer
  cases h1 : s.method.replay_buffer <;> cases h2 : s.method.replay_buffer_args <;> simp

theorem stepReplayBuffer_pla (s : ResolveState) :
    (stepReplayBuffer s).policy_learner_args = s.policy_learner_args := by
  unfold stepReplayBuffer
  cases h1 : s.method.replay_buffer <;> cases h2 : s.method.replay_buffer_args <;> simp

theorem stepSafetyModule_method (s : ResolveState) :
    (stepSafetyModule s).method = s.method := by
  unfold stepSafetyModule
  cases h1 : s.method.safety_module <;> cases h2 : s.method.safety_module_args <;> simp

theorem stepSafetyModule_pla (s : ResolveState) :
    (stepSafetyModule s).policy_learner_args = s.policy_learner_args := by
  unfold stepSafetyModule
  cases h1 : s.method.safety_module <;> cases h2 : s.method.safety_module_args <;> simp

theorem preActionRep_method (env : Env) (method : Method) :
    (preActionRep env method).method = method := by
  unfold preActionRep
  rw [stepSafetyModule_method, stepReplayBuffer_method, stepExploration_method,
    stepStateDim_method]
  rfl

theorem preActionRep_state_dim (env : Env) (method : Method) :
    (preActionRep env method).policy_learner_args.state_dim = some (obsDim env) := by
  unfold preActionRep
  rw [stepSafetyModule_pla, stepReplayBuffer_pla, stepExploration_state_dim,
    stepStateDim_state_dim]

/-- After the action-representation step the key is always present:
either the configured module or the default identity module was stored. -/
theorem stepActionRep_arm_some (mkARM : String → ActionRepArgs → ActionRepModuleInst)
    (defaultARM : ActionRepModuleInst) (env : Env) (s : ResolveState) :
    ∃ m, (stepActionRep mkARM defaultARM env s).policy_learner_args.action_representation_module
      = some m := by
  unfold stepActionRep
  cases h1 : s.method.action_representation_module <;>
    cases h2 : s.method.action_representation_module_args <;> simp

theorem stepActionRep_state_dim (mkARM : String → ActionRepArgs → ActionRepModuleInst)
    (defaultARM : ActionRepModuleInst) (env : Env) (s : ResolveState) :
    (stepActionRep mkARM defaultARM env s).policy_learner_args.state_dim
      = s.policy_learner_args.state_dim := by
  unfold stepActionRep
  cases h1 : s.method.action_representation_module <;>
    cases h2 : s.method.action_representation_module_args <;> simp

theorem stepActionRep_name (mkARM : String → ActionRepArgs → ActionRepModuleInst)
    (defaultARM : ActionRepModuleInst) (env : Env) (s : ResolveState) :
    (stepActionRep mkARM defaultARM env s).method.name = s.method.name := by
  unfold stepActionRep
  cases h1 : s.method.action_representation_module <;>
    cases h2 : s.method.action_representation_module_args <;> simp

theorem stepActionRep_hist_keys (mkARM : String → ActionRepArgs → ActionRepModuleInst)
    (defaultARM : ActionRepModuleInst) (env : Env) (s : ResolveState) :
    (stepActionRep mkARM defaultARM env s).method.history_summarization_module
        = s.method.history_summarization_module ∧
    (stepActionRep mkARM defaultARM env s).method.history_summarization_module_args
        = s.method.history_summarization_module_args := by
  unfold stepActionRep
  cases h1 : s.method.action_representation_module <;>
    cases h2 : s.method.action_representation_module_args <;> simp

theorem stepActionRep_network_keys (mkARM : String → ActionRepArgs → ActionRepModuleInst)
    (defaultARM : ActionRepModuleInst) (env : Env) (s : ResolveState) :
    (stepActionRep mkARM defaultARM env s).method.network_module = s.method.network_module ∧
    (stepActionRep mkARM defaultARM env s).method.network_args = s.method.network_args := by
  unfold stepActionRep
  cases h1 : s.method.action_representation_module <;>
    cases h2 : s.method.action_representation_module_args <;> simp

theorem histActionDim_some (env : Env) (pla : PolicyLearnerArgs) (m : ActionRepModuleInst)
    (h : pla.action_representation_module = some m) :
    histActionDim env pla = m.representation_dim := by
  unfold histActionDim
  rw [h]

/-- A method descriptor with no history-summarization key leaves the state
untouched at the history-summarization step. -/
theorem stepHistorySummarization_skip (env : Env) (s : ResolveState)
    (h : s.method.history_summarization_module = none) :
    stepHistorySummarization env s = s := by
  unfold stepHistorySummarization
  rw [h]

theorem stepHistorySummarization_arm (env : Env) (s : ResolveState) :
    (stepHistorySummarization env s).policy_learner_args.action_representation_module
      = s.policy_learner_args.action_representation_module := by
  unfold stepHistorySummarization
  cases h1 : s.method.history_summarization_module <;>
    cases h2 : s.method.history_summarization_module_args <;>
    try (first | rfl | exact ⟨rfl, rfl⟩)
  dsimp only
  split_ifs <;> (first | rfl | exact ⟨rfl, rfl⟩)

theorem stepHistorySummarization_name (env : Env) (s : ResolveState) :
    (stepHistorySummarization env s).method.name = s.method.name := by
  unfold stepHistorySummarization
  cases h1 : s.method.history_summarization_module <;>
    cases h2 : s.method.history_summarization_module_args <;>
    try (first | rfl | exact ⟨rfl, rfl⟩)
  dsimp only
  split_ifs <;> (first | rfl | exact ⟨rfl, rfl⟩)

theorem stepHistorySummarization_network_keys (env : Env) (s : ResolveState) :
    (stepHistorySummarization env s).method.network_module = s.method.network_module ∧
    (stepHistorySummarization env s).method.network_args = s.method.network_args := by
  unfold stepHistorySummarization
  cases h1 : s.method.history_summarization_module <;>
    cases h2 : s.method.history_summarization_module_args <;>
    try (first | rfl | exact ⟨rfl, rfl⟩)
  dsimp only
  split_ifs <;> (first | rfl | exact ⟨rfl, rfl⟩)

theorem stepHistorySummarization_arm_args (env : Env) (s : ResolveState) :
    (stepHistorySummarization env s).method.action_representation_module_args
      = s.method.action_representation_module_args := by
  unfold stepHistorySummarization
  cases h1 : s.method.history_summarization_module <;>
    cases h2 : s.method.history_summarization_module_args <;>
    try (first | rfl | exact ⟨rfl, rfl⟩)
  dsimp only
  split_ifs <;> (first | rfl | exact ⟨rfl, rfl⟩)

/-- The stacking variant overwrites `state_dim` with
`(observation_dim + action_dim) * history_length` as read back from the
injected argument bundle. -/
theorem stepHistorySummarization_stacking (env : Env) (s : ResolveState) (args : HistSummArgs)
    (h1 : s.method.history_summarization_module = some "StackingHistorySummarizationModule")
    (h2 : s.method.history_summarization_module_args = some args) :
    (stepHistorySummarization env s).policy_learner_args.state_dim
      = some ((obsDim env + histActionDim env s.policy_learner_args) * args.history_length) := by
  unfold stepHistorySummarization
  rw [h1, h2]
  simp

theorem stepNetworkModule_method (env : Env) (s : ResolveState) :
    (stepNetworkModule env s).method = s.method := by
  unfold stepNetworkModule
  cases h : s.method.network_module <;> try rfl
  dsimp only
  split_ifs <;> rfl

theorem stepNetworkModule_core (env : Env) (s : ResolveState) :
    (stepNetworkModule env s).policy_learner_args.state_dim = s.policy_learner_args.state_dim ∧
    (stepNetworkModule env s).policy_learner_args.action_representation_module
      = s.policy_learner_args.action_representation_module ∧
    (stepNetworkModule env s).policy_learner_args.q_ensemble_network
      = s.policy_learner_args.q_ensemble_network := by
  unfold stepNetworkModule
  cases h : s.method.network_module <;> try exact ⟨rfl, rfl, rfl⟩
  dsimp only
  split_ifs <;> exact ⟨rfl, rfl, rfl⟩

theorem stepCriticNetworkModule_method (env : Env) (s : ResolveState) :
    (stepCriticNetworkModule env s).method = s.method := by
  unfold stepCriticNetworkModule
  cases h : s.method.critic_network_module <;> try rfl
  dsimp only
  split_ifs <;> rfl

theorem stepCriticNetworkModule_core (env : Env) (s : ResolveState) :
    (stepCriticNetworkModule env s).policy_learner_args.state_dim
        = s.policy_learner_args.state_dim ∧
    (stepCriticNetworkModule env s).policy_learner_args.action_representation_module
      = s.policy_learner_args.action_representation_module ∧
    (stepCriticNetworkModule env s).policy_learner_args.network_instance
      = s.policy_learner_args.network_instance ∧
    (stepCriticNetworkModule env s).policy_learner_args.q_ensemble_network
      = s.policy_learner_args.q_ensemble_network := by
  unfold stepCriticNetworkModule
  cases h : s.method.critic_network_module <;> try exact ⟨rfl, rfl, rfl, rfl⟩
  dsimp only
  split_ifs <;> exact ⟨rfl, rfl, rfl, rfl⟩

theorem stepCriticValueNetwork_method (env : Env) (s : ResolveState) :
    (stepCriticValueNetwork env s).method = s.method := by
  unfold stepCriticValueNetwork
  split_ifs <;> rfl

theorem stepCriticValueNetwork_core (env : Env) (s : ResolveState) :
    (stepCriticValueNetwork env s).policy_learner_args.state_dim
        = s.policy_learner_args.state_dim ∧
    (stepCriticValueNetwork env s).policy_learner_args.action_representation_module
      = s.policy_learner_args.action_representation_module ∧
    (stepCriticValueNetwork env s).policy_learner_args.network_instance
      = s.policy_learner_args.network_instance ∧
    (stepCriticValueNetwork env s).policy_learner_args.q_ensemble_network
      = s.policy_learner_args.q_ensemble_network := by
  unfold stepCriticValueNetwork
  split_ifs <;> exact ⟨rfl, rfl, rfl, rfl⟩

theorem stepActorNetwork_method (env : Env) (s : ResolveState) :
    (stepActorNetwork env s).method = s.method := by
  unfold stepActorNetwork
  split_ifs <;> rfl

theorem stepActorNetwork_core (env : Env) (s : ResolveState) :
    (stepActorNetwork env s).policy_learner_args.state_dim = s.policy_learner_args.state_dim ∧
    (stepActorNetwork env s).policy_learner_args.action_representation_module
      = s.policy_learner_args.action_representation_module ∧
    (stepActorNetwork env s).policy_learner_args.network_instance
      = s.policy_learner_args.network_instance ∧
    (stepActorNetwork env s).policy_learner_args.q_ensemble_network
      = s.policy_learner_args.q_ensemble_network := by
  unfold stepActorNetwork
  split_ifs <;> exact ⟨rfl, rfl, rfl, rfl⟩

theorem stepDuelingDQN_not_taken (env : Env) (s : ResolveState)
    (h : s.method.name ≠ "DuelingDQN") :
    stepDuelingDQN env s = some s := by
  unfold stepDuelingDQN
  rw [if_neg h]

theorem stepDuelingDQN_taken (env : Env) (s : ResolveState) (nm : NetworkModule)
    (nargs : ExtraArgs) (hname : s.method.name = "DuelingDQN")
    (hn : s.method.network_module = some nm) (hg : s.method.network_args = some nargs) :
    stepDuelingDQN env s = some { s with policy_learner_args :=
      { s.policy_learner_args with
        network_instance := some (NetworkInstance.byStateAction nm (obsDim env)
          env.action_space.n nargs) } } := by
  unfold stepDuelingDQN
  rw [if_pos hname, hn, hg]

theorem stepDuelingDQN_some (env : Env) (s s' : ResolveState)
    (h : stepDuelingDQN env s = some s') :
    s'.method = s.method ∧
    s'.policy_learner_args.state_dim = s.policy_learner_args.state_dim ∧
    s'.policy_learner_args.action_representation_module
      = s.policy_learner_args.action_representation_module ∧
    s'.policy_learner_args.q_ensemble_network = s.policy_learner_args.q_ensemble_network := by
  unfold stepDuelingDQN at h
  split_ifs at h
  · cases h1 : s.method.network_module with
    | none => rw [h1] at h; cases h
    | some nm =>
      cases h2 : s.method.network_args with
      | none => rw [h1, h2] at h; cases h
      | some nargs =>
        rw [h1, h2] at h
        cases h
        exact ⟨rfl, rfl, rfl, rfl⟩
  · cases h
    exact ⟨rfl, rfl, rfl, rfl⟩

theorem stepBootstrappedDQN_not_taken (env : Env) (s : ResolveState)
    (h : s.method.name ≠ "BootstrappedDQN") :
    stepBootstrappedDQN env s = some s := by
  unfold stepBootstrappedDQN
  rw [if_neg h]

theorem stepBootstrappedDQN_taken (env : Env) (s : ResolveState) (nm : NetworkModule)
    (nargs : ExtraArgs) (hname : s.method.name = "BootstrappedDQN")
    (hn : s.method.network_module = some nm) (hg : s.method.network_args = some nargs) :
    stepBootstrappedDQN env s = some { s with policy_learner_args :=
      { s.policy_learner_args with
        q_ensemble_network := some (NetworkInstance.byStateAction nm (obsDim env)
          env.action_space.n nargs)
        state_dim := none } } := by
  unfold stepBootstrappedDQN
  rw [if_pos hname, hn, hg]

theorem stepBootstrappedDQN_some (env : Env) (s s' : ResolveState)
    (h : stepBootstrappedDQN env s = some s') :
    s'.method = s.method ∧
    s'.policy_learner_args.network_instance = s.policy_learner_args.network_instance ∧
    s'.policy_learner_args.action_representation_module
      = s.policy_learner_args.action_representation_module := by
  unfold stepBootstrappedDQN at h
  split_ifs at h
  · cases h1 : s.method.network_module with
    | none => rw [h1] at h; cases h
    | some nm =>
      cases h2 : s.method.network_args with
      | none => rw [h1, h2] at h; cases h
      | some nargs =>
        rw [h1, h2] at h
        cases h
        exact ⟨rfl, rfl, rfl⟩
  · cases h
    exact ⟨rfl, rfl, rfl⟩

theorem stepDynamic_method (s : ResolveState) : (stepDynamic s).method = s.method := by
  unfold stepDynamic
  split_ifs <;> rfl

theorem stepDynamic_core (s : ResolveState) :
    (stepDynamic s).policy_learner_args.state_dim = s.policy_learner_args.state_dim ∧
    (stepDynamic s).policy_learner_args.action_representation_module
      = s.policy_learner_args.action_representation_module ∧
    (stepDynamic s).policy_learner_args.network_instance
      = s.policy_learner_args.network_instance ∧
    (stepDynamic s).policy_learner_args.q_ensemble_network
      = s.policy_learner_args.q_ensemble_network := by
  unfold stepDynamic
  split_ifs <;> exact ⟨rfl, rfl, rfl, rfl⟩

theorem stepActionSpace_method (env : Env) (s : ResolveState) :
    (stepActionSpace env s).method = s.method := rfl

theorem stepActionSpace_core (env : Env) (s : ResolveState) :
    (stepActionSpace env s).policy_learner_args.state_dim = s.policy_learner_args.state_dim ∧
    (stepActionSpace env s).policy_learner_args.action_representation_module
      = s.policy_learner_args.action_representation_module ∧
    (stepActionSpace env s).policy_learner_args.network_instance
      = s.policy_learner_args.network_instance ∧
    (stepActionSpace env s).policy_learner_args.q_ensemble_network
      = s.policy_learner_args.q_ensemble_network :=
  ⟨rfl, rfl, rfl, rfl⟩

/-- The mutation lines 172-177 perform on the argument bundle of the
identity variant: inject `max_number_actions` from `action_space.n` and
`representation_dim` from `action_space.action_dim`. -/
def injectIdentityArgs (env : Env) (args : ActionRepArgs) : ActionRepArgs :=
  { args with max_number_actions := some env.action_space.n
              representation_dim := some env.action_space.action_dim }

/-- Exact effect of the action-representation step for the identity variant:
both derived keys are injected into the argument bundle and the module is
instantiated from the injected bundle. -/
theorem stepActionRep_identity (mkARM : String → ActionRepArgs → ActionRepModuleInst)
    (defaultARM : ActionRepModuleInst) (env : Env) (s : ResolveState) (args : ActionRepArgs)
    (h1 : s.method.action_representation_module = some "IdentityActionRepresentationModule")
    (h2 : s.method.action_representation_module_args = some args) :
    stepActionRep mkARM defaultARM env s = { s with
      method := { s.method with
        action_representation_module_args := some (injectIdentityArgs env args) }
      policy_learner_args := { s.policy_learner_args with
        action_representation_module :=
          some (mkARM "IdentityActionRepresentationModule" (injectIdentityArgs env args)) } } := by
  unfold stepActionRep injectIdentityArgs
  rw [h1, h2]
  dsimp only
  rfl

theorem netSteps_method (env : Env) (s : ResolveState) :
    (netSteps env s).method = s.method := by
  unfold netSteps
  rw [stepActorNetwork_method, stepCriticValueNetwork_method, stepCriticNetworkModule_method,
    stepNetworkModule_method]

theorem netSteps_state_dim (env : Env) (s : ResolveState) :
    (netSteps env s).policy_learner_args.state_dim = s.policy_learner_args.state_dim := by
  unfold netSteps
  rw [(stepActorNetwork_core env _).1, (stepCriticValueNetwork_core env _).1,
    (stepCriticNetworkModule_core env _).1, (stepNetworkModule_core env _).1]

theorem netSteps_arm (env : Env) (s : ResolveState) :
    (netSteps env s).policy_learner_args.action_representation_module
      = s.policy_learner_args.action_representation_module := by
  unfold netSteps
  rw [(stepActorNetwork_core env _).2.1, (stepCriticValueNetwork_core env _).2.1,
    (stepCriticNetworkModule_core env _).2.1, (stepNetworkModule_core env _).2.1]

theorem netSteps_q_ensemble (env : Env) (s : ResolveState) :
    (netSteps env s).policy_learner_args.q_ensemble_network
      = s.policy_learner_args.q_ensemble_network := by
  unfold netSteps
  rw [(stepActorNetwork_core env _).2.2.2, (stepCriticValueNetwork_core env _).2.2.2,
    (stepCriticNetworkModule_core env _).2.2.2, (stepNetworkModule_core env _).2.2]

theorem resolveThroughHistory_name (mkARM : String → ActionRepArgs → ActionRepModuleInst)
    (defaultARM : ActionRepModuleInst) (env : Env) (method : Method) :
    (resolveThroughHistory mkARM defaultARM env method).method.name = method.name := by
  unfold resolveThroughHistory
  rw [stepHistorySummarization_name, stepActionRep_name]
  rw [preActionRep_method]

theorem resolveThroughHistory_network_keys
    (mkARM : String → ActionRepArgs → ActionRepModuleInst)
    (defaultARM : ActionRepModuleInst) (env : Env) (method : Method) :
    (resolveThroughHistory mkARM defaultARM env method).method.network_module
        = method.network_module ∧
    (resolveThroughHistory mkARM defaultARM env method).method.network_args
        = method.network_args := by
  unfold resolveThroughHistory
  rw [(stepHistorySummarization_network_keys env _).1,
    (stepHistorySummarization_network_keys env _).2,
    (stepActionRep_network_keys mkARM defaultARM env _).1,
    (stepActionRep_network_keys mkARM defaultARM env _).2, preActionRep_method]
  exact ⟨rfl, rfl⟩

/-- The state `evaluate_single` deletes `state_dim` for `"BootstrappedDQN"`
methods and leaves it alone otherwise. -/
theorem stepBootstrappedDQN_some_state_dim (env : Env) (s s' : ResolveState)
    (h : stepBootstrappedDQN env s = some s') :
    s'.policy_learner_args.state_dim
      = if s.method.name = "BootstrappedDQN" then none else s.policy_learner_args.state_dim := by
  unfold stepBootstrappedDQN at h
  split_ifs at h with hn <;> rw [if_congr (iff_of_eq (congrArg _ rfl)) rfl rfl]
  · rw [if_pos hn]
    cases h1 : s.method.network_module with
    | none => rw [h1] at h; cases h
    | some nm =>
      cases h2 : s.method.network_args with
      | none => rw [h1, h2] at h; cases h
      | some nargs =>
        rw [h1, h2] at h
        cases h
        rfl
  · rw [if_neg hn]
    cases h
    rfl

/-- Elimination form of `resolveMethod`: a successful resolution factors
through the Dueling and Bootstrapped steps. -/
theorem resolveMethod_some_elim (mkARM : String → ActionRepArgs → ActionRepModuleInst)
    (defaultARM : ActionRepModuleInst) (env : Env) (method : Method) (s : ResolveState)
    (hr : resolveMethod mkARM defaultARM env method = some s) :
    ∃ s1 s2,
      stepDuelingDQN env (netSteps env (resolveThroughHistory mkARM defaultARM env method))
          = some s1 ∧
      stepBootstrappedDQN env s1 = some s2 ∧
      s = stepActionSpace env (stepDynamic s2) := by
  unfold resolveMethod at hr
  cases hd : stepDuelingDQN env (netSteps env (resolveThroughHistory mkARM defaultARM env method)) with
  | none =>
    rw [hd] at hr
    dsimp only at hr
    cases hr
  | some s1 =>
    rw [hd] at hr
    dsimp only at hr
    cases hb : stepBootstrappedDQN env s1 with
    | none =>
      rw [hb] at hr
      dsimp only at hr
      cases hr
    | some s2 =>
      rw [hb] at hr
      dsimp only at hr
      injection hr with hr
      subst hr
      exact ⟨s1, s2, rfl, hb, rfl⟩

/-- Arithmetic mean of a list of samples (the quantity the specification
states for the plotted mean). -/
def arithMean (l : List Rat) : Rat := l.sum / (l.length : Rat)

/-- Population standard deviation of a list of samples (the quantity the
specification states for the numerator of the standard error). -/
noncomputable def popStd (l : List Rat) : Real :=
  Real.sqrt (((l.map (fun x => (x - arithMean l) ^ 2)).sum / (l.length : Rat) : Rat))

/-! ## Claim theorems: configuration resolution -/

/-- C5: for a method descriptor with no history-summarization key, the
resolved `policy_learner_args["state_dim"]` is the raw observation dimension
`observation_space.shape[0]`, except that the BootstrappedDQN branch deletes
the key. -/
theorem no_history_key_state_dim_raw (mkARM : String → ActionRepArgs → ActionRepModuleInst)
    (defaultARM : ActionRepModuleInst) (env : Env) (method : Method) (s : ResolveState)
    (hm : method.history_summarization_module = none)
    (hr : resolveMethod mkARM defaultARM env method = some s) :
    s.policy_learner_args.state_dim
      = if method.name = "BootstrappedDQN" then none else some (obsDim env) := by
  obtain ⟨s1, s2, hd, hb, hs⟩ := resolveMethod_some_elim mkARM defaultARM env method s hr
  have hT_sd : (resolveThroughHistory mkARM defaultARM env method).policy_learner_args.state_dim
      = some (obsDim env) := by
    unfold resolveThroughHistory
    rw [stepHistorySummarization_skip _ _ (by
      rw [(stepActionRep_hist_keys mkARM defaultARM env _).1, preActionRep_method]
      exact hm)]
    rw [stepActionRep_state_dim, preActionRep_state_dim]
  have hdl := stepDuelingDQN_some env _ s1 hd
  have hbs := stepBootstrappedDQN_some_state_dim env s1 s2 hb
  subst hs
  rw [(stepActionSpace_core env _).1, (stepDynamic_core s2).1, hbs, hdl.1, hdl.2.1,
    netSteps_method, netSteps_state_dim, resolveThroughHistory_name, hT_sd]

/-- C1: for a method descriptor requesting the stacking
history-summarization variant, resolution sets `state_dim` to
`(observation_dim + action_dim) * history_length`, where `observation_dim`
is `observation_space.shape[0]` and `action_dim` is the representation
dimension of the already-resolved action-representation module; the value
survives to the final bundle for every method not named
`"BootstrappedDQN"`. -/
theorem stacking_overwrites_state_dim (mkARM : String → ActionRepArgs → ActionRepModuleInst)
    (defaultARM : ActionRepModuleInst) (env : Env) (method : Method) (args : HistSummArgs)
    (hm : method.history_summarization_module = some "StackingHistorySummarizationModule")
    (ha : method.history_summarization_module_args = some args) :
    ∃ m, (resolveThroughHistory mkARM defaultARM env
        method).policy_learner_args.action_representation_module = some m ∧
      (resolveThroughHistory mkARM defaultARM env method).policy_learner_args.state_dim
        = some ((obsDim env + m.representation_dim) * args.history_length) ∧
      ∀ s, method.name ≠ "BootstrappedDQN" →
        resolveMethod mkARM defaultARM env method = some s →
        s.policy_learner_args.state_dim
          = some ((obsDim env + m.representation_dim) * args.history_length) := by
  obtain ⟨m, hmod⟩ := stepActionRep_arm_some mkARM defaultARM env (preActionRep env method)
  have hh1 : (stepActionRep mkARM defaultARM env
      (preActionRep env method)).method.history_summarization_module
        = some "StackingHistorySummarizationModule" := by
    rw [(stepActionRep_hist_keys mkARM defaultARM env _).1, preActionRep_method]
    exact hm
  have hh2 : (stepActionRep mkARM defaultARM env
      (preActionRep env method)).method.history_summarization_module_args = some args := by
    rw [(stepActionRep_hist_keys mkARM defaultARM env _).2, preActionRep_method]
    exact ha
  have hT_sd : (resolveThroughHistory mkARM defaultARM env method).policy_learner_args.state_dim
      = some ((obsDim env + m.representation_dim) * args.history_length) := by
    unfold resolveThroughHistory
    rw [stepHistorySummarization_stacking env _ args hh1 hh2, histActionDim_some env _ m hmod]
  refine ⟨m, ?_, hT_sd, ?_⟩
  · unfold resolveThroughHistory
    rw [stepHistorySummarization_arm]
    exact hmod
  · intro s hname hr
    obtain ⟨s1, s2, hd, hb, hs⟩ := resolveMethod_some_elim mkARM defaultARM env method s hr
    have hdl := stepDuelingDQN_some env _ s1 hd
    have hbs := stepBootstrappedDQN_some_state_dim env s1 s2 hb
    subst hs
    rw [(stepActionSpace_core env _).1, (stepDynamic_core s2).1, hbs, hdl.1, hdl.2.1,
      netSteps_method, netSteps_state_dim, resolveThroughHistory_name, hT_sd, if_neg hname]

/-- C3: a method descriptor named `"BootstrappedDQN"` ends resolution with
no `state_dim` key in the final bundle, while the ensemble network is built
from the raw observation dimension and the raw action count. -/
theorem bootstrappedDQN_deletes_state_dim (mkARM : String → ActionRepArgs → ActionRepModuleInst)
    (defaultARM : ActionRepModuleInst) (env : Env) (method : Method) (s : ResolveState)
    (nm : NetworkModule) (nargs : ExtraArgs)
    (hname : method.name = "BootstrappedDQN")
    (hn : method.network_module = some nm) (hg : method.network_args = some nargs)
    (hr : resolveMethod mkARM defaultARM env method = some s) :
    s.policy_learner_args.state_dim = none ∧
    s.policy_learner_args.q_ensemble_network
      = some (NetworkInstance.byStateAction nm (obsDim env) env.action_space.n nargs) := by
  obtain ⟨s1, s2, hd, hb, hs⟩ := resolveMethod_some_elim mkARM defaultARM env method s hr
  have hdl := stepDuelingDQN_some env _ s1 hd
  have hname1 : s1.method.name = "BootstrappedDQN" := by
    rw [hdl.1, netSteps_method, resolveThroughHistory_name]
    exact hname
  have hn1 : s1.method.network_module = some nm := by
    rw [hdl.1, netSteps_method, (resolveThroughHistory_network_keys mkARM defaultARM env method).1]
    exact hn
  have hg1 : s1.method.network_args = some nargs := by
    rw [hdl.1, netSteps_method, (resolveThroughHistory_network_keys mkARM defaultARM env method).2]
    exact hg
  have hbt := stepBootstrappedDQN_taken env s1 nm nargs hname1 hn1 hg1
  rw [hbt] at hb
  injection hb with hb
  subst hs
  constructor
  · rw [(stepActionSpace_core env _).1, (stepDynamic_core s2).1, ← hb]
  · rw [(stepActionSpace_core env _).2.2.2, (stepDynamic_core s2).2.2.2, ← hb]

/-- C4: for the identity action-representation variant with its args bundle
present, resolution injects `max_number_actions = action_space.n` and
`representation_dim = action_space.action_dim` into the bundle, and the
module is instantiated from exactly the injected bundle. -/
theorem identity_action_rep_injection (mkARM : String → ActionRepArgs → ActionRepModuleInst)
    (defaultARM : ActionRepModuleInst) (env : Env) (method : Method) (args : ActionRepArgs)
    (h1 : method.action_representation_module = some "IdentityActionRepresentationModule")
    (h2 : method.action_representation_module_args = some args) :
    (resolveThroughHistory mkARM defaultARM env method).method.action_representation_module_args
        = some (injectIdentityArgs env args) ∧
    (injectIdentityArgs env args).max_number_actions = some env.action_space.n ∧
    (injectIdentityArgs env args).representation_dim = some env.action_space.action_dim ∧
    (resolveThroughHistory mkARM defaultARM env
        method).policy_learner_args.action_representation_module
      = some (mkARM "IdentityActionRepresentationModule" (injectIdentityArgs env args)) := by
  have h1' : (preActionRep env method).method.action_representation_module
      = some "IdentityActionRepresentationModule" := by
    rw [preActionRep_method]
    exact h1
  have h2' : (preActionRep env method).method.action_representation_module_args = some args := by
    rw [preActionRep_method]
    exact h2
  have hstep := stepActionRep_identity mkARM defaultARM env (preActionRep env method) args h1' h2'
  refine ⟨?_, rfl, rfl, ?_⟩
  · unfold resolveThroughHistory
    rw [stepHistorySummarization_arm_args, hstep]
  · unfold resolveThroughHistory
    rw [stepHistorySummarization_arm, hstep]

/-- C9: after the action-representation resolution step the
`action_representation_module` key is always present in
`policy_learner_args`, so the fallback reading `env.action_space.action_dim`
in history-summarization resolution can never be selected: the derived
`action_dim` always equals the representation dimension of the stored module. -/
theorem action_rep_key_always_present (mkARM : String → ActionRepArgs → ActionRepModuleInst)
    (defaultARM : ActionRepModuleInst) (env : Env) (s : ResolveState) :
    ∃ m, (stepActionRep mkARM defaultARM env s).policy_learner_args.action_representation_module
        = some m ∧
      histActionDim env (stepActionRep mkARM defaultARM env s).policy_learner_args
        = m.representation_dim := by
  obtain ⟨m, hm⟩ := stepActionRep_arm_some mkARM defaultARM env s
  exact ⟨m, hm, histActionDim_some env _ m hm⟩

/-- C8 (amended): a method descriptor whose name is exactly `"DuelingDQN"`
takes the Dueling branch: the network instance is constructed from the raw
observation dimension and `action_space.n`, bypassing the
action-representation path. -/
theorem duelingDQN_exact_name_branch (mkARM : String → ActionRepArgs → ActionRepModuleInst)
    (defaultARM : ActionRepModuleInst) (env : Env) (method : Method) (s : ResolveState)
    (nm : NetworkModule) (nargs : ExtraArgs)
    (hname : method.name = "DuelingDQN")
    (hn : method.network_module = some nm) (hg : method.network_args = some nargs)
    (hr : resolveMethod mkARM defaultARM env method = some s) :
    s.policy_learner_args.network_instance
      = some (NetworkInstance.byStateAction nm (obsDim env) env.action_space.n nargs) := by
  obtain ⟨s1, s2, hd, hb, hs⟩ := resolveMethod_some_elim mkARM defaultARM env method s hr
  have hnameU : (netSteps env (resolveThroughHistory mkARM defaultARM env method)).method.name
      = "DuelingDQN" := by
    rw [netSteps_method, resolveThroughHistory_name]
    exact hname
  have hnU : (netSteps env (resolveThroughHistory mkARM defaultARM env
      method)).method.network_module = some nm := by
    rw [netSteps_method, (resolveThroughHistory_network_keys mkARM defaultARM env method).1]
    exact hn
  have hgU : (netSteps env (resolveThroughHistory mkARM defaultARM env
      method)).method.network_args = some nargs := by
    rw [netSteps_method, (resolveThroughHistory_network_keys mkARM defaultARM env method).2]
    exact hg
  have hdt := stepDuelingDQN_taken env _ nm nargs hnameU hnU hgU
  rw [hdt] at hd
  injection hd with hinj
  have hname1 : s1.method.name = "DuelingDQN" := by
    rw [← hinj]
    exact hnameU
  have hbns : s1.method.name ≠ "BootstrappedDQN" := by
    rw [hname1]
    decide
  have hb' := stepBootstrappedDQN_not_taken env s1 hbns
  rw [hb'] at hb
  injection hb with hb2
  subst hs
  rw [(stepActionSpace_core env _).2.2.1, (stepDynamic_core s2).2.2.1, ← hb2, ← hinj]

/-! ## Aggregation lemmas -/

theorem loadLoop_eq (files : Nat → Option (List Rat)) (rs : List Nat)
    (a : List (List Rat)) (b : List Nat) :
    loadLoop files rs (a, b)
      = (a ++ rs.filterMap files, b ++ rs.filter (fun r => (files r).isNone)) := by
  induction rs generalizing a b with
  | nil => simp [loadLoop]
  | cons r rs ih =>
    unfold loadLoop
    cases h : files r with
    | some d => simp [h, ih]
    | none => simp [h, ih]

theorem loadRuns_eq (files : Nat → Option (List Rat)) (num_runs : Nat) :
    loadRuns files num_runs
      = ((List.range num_runs).filterMap files,
         (List.range num_runs).filter (fun r => (files r).isNone)) := by
  unfold loadRuns
  rw [loadLoop_eq]
  simp

theorem npMeanAxis0_get (data : List (List Rat)) (L i : Nat)
    (hrect : ∀ row ∈ data, row.length = L) (hne : data ≠ []) (hi : i < L) :
    (npMeanAxis0 data).get? i = some (arithMean (npColumn data i)) := by
  cases data with
  | nil => exact absurd rfl hne
  | cons row rest =>
    have hL : row.length = L := hrect row (List.mem_cons_self row rest)
    unfold npMeanAxis0 meanShape arithMean
    dsimp only [List.getD]
    rw [List.get?_map, List.get?_range (by rw [hL]; exact hi)]
    unfold npColumn
    rw [List.length_map]
    rfl

theorem colVariance_eq_spec (data : List (List Rat)) (i : Nat) (hne : data ≠ []) :
    colVariance data i
      = ((npColumn data i).map (fun x => (x - arithMean (npColumn data i)) ^ 2)).sum
          / ((npColumn data i).length : Rat) := by
  unfold colVariance arithMean npColumn
  rw [List.length_map]

theorem stdErrorVec_get (data : List (List Rat)) (num_runs L i : Nat)
    (hrect : ∀ row ∈ data, row.length = L) (hne : data ≠ []) (hi : i < L) :
    (stdErrorVec data num_runs).get? i
      = some (popStd (npColumn data i) / Real.sqrt (num_runs : Real)) := by
  cases data with
  | nil => exact absurd rfl hne
  | cons row rest =>
    have hL : row.length = L := hrect row (List.mem_cons_self row rest)
    unfold stdErrorVec npStdAxis0 meanShape
    dsimp only [List.getD]
    rw [List.get?_map, List.get?_map, List.get?_range (by rw [hL]; exact hi)]
    dsimp only [Option.map]
    have hvar : colVariance (row :: rest) i
        = ((npColumn (row :: rest) i).map
            (fun x => (x - arithMean (npColumn (row :: rest) i)) ^ 2)).sum
          / ((npColumn (row :: rest) i).length : Rat) :=
      colVariance_eq_spec (row :: rest) i (by simp)
    unfold popStd
    rw [hvar]

theorem xListOpt_get (data : List (List Rat)) (record_period L i : Nat)
    (hrect : ∀ row ∈ data, row.length = L) (hne : data ≠ []) (hi : i < L) :
    (xListOpt record_period data).bind (fun xs => xs.get? i)
      = some (record_period * i) := by
  cases data with
  | nil => exact absurd rfl hne
  | cons row rest =>
    have hL : row.length = L := hrect row (List.mem_cons_self row rest)
    unfold xListOpt meanShape
    dsimp only [Option.map, Option.bind, List.get?]
    rw [List.get?_map, List.get?_range (by rw [hL]; exact hi)]
    rfl

/-! ## Claim theorems: aggregation -/

/-- C2: the per-point aggregates of `generate_one_plot`: the plotted mean at
point `i` is the arithmetic mean over the values of the found runs at `i`, the
standard error at `i` is the population standard deviation of those values
divided by the square root of the configured run count, and the x-axis
value at `i` is `record_period * i`. -/
theorem aggregation_formulas (files : Nat → Option (List Rat))
    (num_runs record_period L i : Nat)
    (hrect : ∀ row ∈ aggregateData files num_runs, row.length = L)
    (hne : aggregateData files num_runs ≠ []) (hi : i < L) :
    (npMeanAxis0 (aggregateData files num_runs)).get? i
        = some (arithMean (npColumn (aggregateData files num_runs) i)) ∧
    (stdErrorVec (aggregateData files num_runs) num_runs).get? i
        = some (popStd (npColumn (aggregateData files num_runs) i)
            / Real.sqrt (num_runs : Real)) ∧
    (xListOpt record_period (aggregateData files num_runs)).bind (fun xs => xs.get? i)
        = some (record_period * i) :=
  ⟨npMeanAxis0_get _ L i hrect hne hi,
   stdErrorVec_get _ num_runs L i hrect hne hi,
   xListOpt_get _ record_period L i hrect hne hi⟩

/-- C6: a missing run file is recorded as a logged notice and skipped, the
data set stacks exactly the present runs in index order, and as long as at
least one run is present the downstream mean/shape computation succeeds. -/
theorem missing_run_file_skipped (files : Nat → Option (List Rat))
    (num_runs record_period : Nat)
    (hpresent : ∃ r, r < num_runs ∧ (files r).isSome) :
    (loadRuns files num_runs).1 = (List.range num_runs).filterMap files ∧
    (loadRuns files num_runs).2 = (List.range num_runs).filter (fun r => (files r).isNone) ∧
    ∃ xs, xListOpt record_period (aggregateData files num_runs) = some xs := by
  refine ⟨congrArg Prod.fst (loadRuns_eq files num_runs),
    congrArg Prod.snd (loadRuns_eq files num_runs), ?_⟩
  obtain ⟨r, hr, hsome⟩ := hpresent
  obtain ⟨d, hd⟩ := Option.isSome_iff_exists.mp hsome
  have hmem : d ∈ aggregateData files num_runs := by
    unfold aggregateData
    rw [loadRuns_eq]
    exact List.mem_filterMap.mpr ⟨r, List.mem_range.mpr hr, hd⟩
  cases hD : aggregateData files num_runs with
  | nil => rw [hD] at hmem; cases hmem
  | cons row rest =>
    refine ⟨(List.range row.length).map (fun j => record_period * j), ?_⟩
    rfl

/-- C10: when every run file for a method and metric is absent, the stacked
data set is empty, the mean collapses to a 0-d scalar (empty shape), and the
`shape[0]` lookup fails instead of rendering or silently skipping. -/
theorem all_runs_missing_raises (files : Nat → Option (List Rat))
    (num_runs record_period : Nat)
    (hall : ∀ r, r < num_runs → files r = none) :
    aggregateData files num_runs = [] ∧
    meanShape (aggregateData files num_runs) = [] ∧
    xListOpt record_period (aggregateData files num_runs) = none := by
  have hdata : aggregateData files num_runs = [] := by
    unfold aggregateData
    rw [loadRuns_eq]
    exact List.filterMap_eq_nil.mpr (fun r hr => hall r (List.mem_range.mp hr))
  refine ⟨hdata, ?_, ?_⟩
  · rw [hdata]
    rfl
  · rw [hdata]
    rfl

/-! ## Launcher lemmas -/

theorem evaluate_length (e : Experiment) :
    (evaluate e).length = e.methods.length * e.num_runs := by
  unfold evaluate
  rw [List.length_flatMap]
  induction e.methods with
  | nil => simp
  | cons m ms ih =>
    simp only [List.map_cons, List.sum_cons, Function.comp, List.length_map,
      List.length_range, List.length_cons, ih]
    rw [Nat.succ_mul, Nat.add_comm]

theorem flatMap_evaluate_length (es : List Experiment) :
    (es.flatMap evaluate).length = (es.map (fun e => e.methods.length * e.num_runs)).sum := by
  rw [List.length_flatMap]
  congr 1
  exact List.map_congr_left (fun e _ => evaluate_length e)

theorem mem_flatMap_evaluate (es : List Experiment) (p : ProcArgs) :
    p ∈ es.flatMap evaluate ↔
      ∃ e ∈ es, ∃ m ∈ e.methods, ∃ i, i < e.num_runs ∧ p = bindProc e m i := by
  rw [List.mem_flatMap]
  constructor
  · rintro ⟨e, he, hp⟩
    unfold evaluate at hp
    rw [List.mem_flatMap] at hp
    obtain ⟨m, hm, hp⟩ := hp
    rw [List.mem_map] at hp
    obtain ⟨i, hi, hp⟩ := hp
    exact ⟨e, he, m, hm, i, List.mem_range.mp hi, hp.symm⟩
  · rintro ⟨e, he, m, hm, i, hi, hp⟩
    refine ⟨e, he, ?_⟩
    unfold evaluate
    rw [List.mem_flatMap]
    exact ⟨m, hm, List.mem_map.mpr ⟨i, List.mem_range.mpr hi, hp.symm⟩⟩

theorem trace_start_lt (A : List ProcArgs) (i : Nat) (p : ProcArgs)
    (h : (A.map ProcEvent.start ++ A.map ProcEvent.join).get? i = some (ProcEvent.start p)) :
    i < A.length := by
  by_contra hge
  push_neg at hge
  rw [List.get?_append_right (by simpa using hge)] at h
  have hmem := List.get?_mem h
  rw [List.mem_map] at hmem
  obtain ⟨a, -, ha⟩ := hmem
  exact ProcEvent.noConfusion ha

theorem trace_join_ge (A : List ProcArgs) (j : Nat) (q : ProcArgs)
    (h : (A.map ProcEvent.start ++ A.map ProcEvent.join).get? j = some (ProcEvent.join q)) :
    A.length ≤ j := by
  by_contra hlt
  push_neg at hlt
  rw [List.get?_append (by simpa using hlt)] at h
  have hmem := List.get?_mem h
  rw [List.mem_map] at hmem
  obtain ⟨a, -, ha⟩ := hmem
  exact ProcEvent.noConfusion ha

/-! ## Claim theorems: run launcher -/

/-- C7: the launcher asserts non-emptiness, creates exactly one process per
(experiment, method, run-index) triple, binds each to its argument tuple,
starts every process before joining any, and returns only after all joins. -/
theorem launcher_one_process_per_triple (es : List Experiment) (h : es ≠ []) :
    run ([] : List Experiment) = none ∧
    run es = some ((es.flatMap evaluate).map ProcEvent.start
        ++ (es.flatMap evaluate).map ProcEvent.join) ∧
    (es.flatMap evaluate).length
        = (es.map (fun e => e.methods.length * e.num_runs)).sum ∧
    (∀ p, p ∈ es.flatMap evaluate ↔
      ∃ e ∈ es, ∃ m ∈ e.methods, ∃ i, i < e.num_runs ∧ p = bindProc e m i) ∧
    (∀ i j p q,
      ((es.flatMap evaluate).map ProcEvent.start
        ++ (es.flatMap evaluate).map ProcEvent.join).get? i = some (ProcEvent.start p) →
      ((es.flatMap evaluate).map ProcEvent.start
        ++ (es.flatMap evaluate).map ProcEvent.join).get? j = some (ProcEvent.join q) →
      i < j) := by
  refine ⟨rfl, ?_, flatMap_evaluate_length es, mem_flatMap_evaluate es, ?_⟩
  · unfold run
    rw [if_pos (List.length_pos.mpr h)]
  · intro i j p q hi hj
    exact Nat.lt_of_lt_of_le (trace_start_lt _ i p hi) (trace_join_ge _ j q hj)

/-! ## Concrete instances for witnesses and counterexamples -/

/-- A concrete action-representation constructor model: the instance exposes
the `representation_dim` passed in its argument bundle (with a fixed default
when the bundle omits it). -/
def mkARM0 : String → ActionRepArgs → ActionRepModuleInst := fun cls args =>
  { className := cls, args := args, representation_dim := args.representation_dim.getD 1 }

/-- A concrete default `IdentityActionRepresentationModule()` instance. -/
def defaultARM0 : ActionRepModuleInst :=
  { className := "IdentityActionRepresentationModule", args := {}, representation_dim := 1 }

/-- A concrete environment with a 4-dimensional observation space and a
2-action discrete action space. -/
def env0 : Env := { observation_shape := [4], action_space := { n := 2, action_dim := 1 } }

/-- A stacking-history method descriptor. -/
def methodStack : Method :=
  { name := "DQN-stack"
    history_summarization_module := some "StackingHistorySummarizationModule"
    history_summarization_module_args := some { history_length := 8 } }

/-- A BootstrappedDQN method descriptor. -/
def methodBoot : Method :=
  { name := "BootstrappedDQN"
    network_module := some (NetworkModule.other "EnsembleQValueNetwork")
    network_args := some [("ensemble_size", 10)] }

/-- A DuelingDQN method descriptor. -/
def methodDueling : Method :=
  { name := "DuelingDQN"
    network_module := some (NetworkModule.other "DuelingQValueNetwork")
    network_args := some [("hidden_dim", 64)] }

/-- A method whose name strictly contains `"DuelingDQN"` as a substring. -/
def methodNoisyDueling : Method :=
  { name := "NoisyDuelingDQN"
    network_module := some (NetworkModule.other "DuelingQValueNetwork")
    network_args := some [("hidden_dim", 64)] }

/-- A method requesting the identity action-representation variant. -/
def methodIdentity : Method :=
  { name := "TD3"
    action_representation_module := some "IdentityActionRepresentationModule"
    action_representation_module_args := some {} }

/-- A plain method descriptor with no optional keys. -/
def methodPlain : Method := { name := "DQN" }

/-- Final resolved state for `methodBoot` in `env0`. -/
def sBoot : ResolveState :=
  (resolveMethod mkARM0 defaultARM0 env0 methodBoot).getD (initState methodBoot)

/-- Final resolved state for `methodDueling` in `env0`. -/
def sDuel : ResolveState :=
  (resolveMethod mkARM0 defaultARM0 env0 methodDueling).getD (initState methodDueling)

/-- Final resolved state for `methodPlain` in `env0`. -/
def sPlain : ResolveState :=
  (resolveMethod mkARM0 defaultARM0 env0 methodPlain).getD (initState methodPlain)

/-- C8 (counterexample): a method whose name contains `"DuelingDQN"` only as
a proper substring does not take the Dueling branch: resolution succeeds
with no network instance constructed at all. -/
theorem dueling_substring_counterexample :
    List.IsInfix "DuelingDQN".toList "NoisyDuelingDQN".toList ∧
    (resolveMethod mkARM0 defaultARM0 env0 methodNoisyDueling).map
        (fun s => s.policy_learner_args.network_instance) = some none := by
  constructor
  · exact ⟨"Noisy".toList, [], by decide⟩
  · rfl

/-! ## Witnesses -/

/-- Witness for C1 at `methodStack` in `env0`: the resolved module is the
default identity module with representation dimension 1, so the overwritten
`state_dim` is `(4 + 1) * 8`. -/
theorem stacking_witness :
    (resolveThroughHistory mkARM0 defaultARM0 env0 methodStack).policy_learner_args.state_dim
      = some ((obsDim env0 + defaultARM0.representation_dim) * 8) := by
  obtain ⟨m, hm, hsd, -⟩ := stacking_overwrites_state_dim mkARM0 defaultARM0 env0 methodStack
    { history_length := 8 } rfl rfl
  have hm' : some m = some defaultARM0 := by
    rw [← hm]
    rfl
  injection hm' with hm'
  rw [hsd, hm']

/-- Witness for C3 at `methodBoot` in `env0`. -/
theorem bootstrapped_witness :
    sBoot.policy_learner_args.state_dim = none ∧
    sBoot.policy_learner_args.q_ensemble_network
      = some (NetworkInstance.byStateAction (NetworkModule.other "EnsembleQValueNetwork")
          (obsDim env0) env0.action_space.n [("ensemble_size", 10)]) :=
  bootstrappedDQN_deletes_state_dim mkARM0 defaultARM0 env0 methodBoot sBoot
    (NetworkModule.other "EnsembleQValueNetwork") [("ensemble_size", 10)] rfl rfl rfl rfl

/-- Witness for C4 at `methodIdentity` in `env0`. -/
theorem identity_witness :
    (resolveThroughHistory mkARM0 defaultARM0 env0
        methodIdentity).method.action_representation_module_args
      = some (injectIdentityArgs env0 {}) ∧
    (injectIdentityArgs env0 {}).max_number_actions = some env0.action_space.n ∧
    (injectIdentityArgs env0 {}).representation_dim = some env0.action_space.action_dim ∧
    (resolveThroughHistory mkARM0 defaultARM0 env0
        methodIdentity).policy_learner_args.action_representation_module
      = some (mkARM0 "IdentityActionRepresentationModule" (injectIdentityArgs env0 {})) :=
  identity_action_rep_injection mkARM0 defaultARM0 env0 methodIdentity {} rfl rfl

/-- Witness for C5 at `methodPlain` in `env0`. -/
theorem no_history_witness :
    sPlain.policy_learner_args.state_dim
      = if methodPlain.name = "BootstrappedDQN" then none else some (obsDim env0) :=
  no_history_key_state_dim_raw mkARM0 defaultARM0 env0 methodPlain sPlain rfl rfl

/-- Witness for the amended C8 at `methodDueling` in `env0`. -/
theorem dueling_witness :
    sDuel.policy_learner_args.network_instance
      = some (NetworkInstance.byStateAction (NetworkModule.other "DuelingQValueNetwork")
          (obsDim env0) env0.action_space.n [("hidden_dim", 64)]) :=
  duelingDQN_exact_name_branch mkARM0 defaultARM0 env0 methodDueling sDuel
    (NetworkModule.other "DuelingQValueNetwork") [("hidden_dim", 64)] rfl rfl rfl rfl

/-- A concrete run-file layout: runs 0 and 1 present with two evaluation
points each, run 2 absent. -/
def files0 : Nat → Option (List Rat) := fun r =>
  if r = 0 then some [1, 2] else if r = 1 then some [3, 5] else none

/-- Witness for C2 at `files0` with configured run count 3, record period
10, and point index 1. -/
theorem aggregation_witness :
    (npMeanAxis0 (aggregateData files0 3)).get? 1
        = some (arithMean (npColumn (aggregateData files0 3) 1)) ∧
    (stdErrorVec (aggregateData files0 3) 3).get? 1
        = some (popStd (npColumn (aggregateData files0 3) 1) / Real.sqrt (3 : Real)) ∧
    (xListOpt 10 (aggregateData files0 3)).bind (fun xs => xs.get? 1) = some (10 * 1) :=
  aggregation_formulas files0 3 10 2 1 (by decide) (by decide) (by decide)

/-- Witness for C6 at `files0`: run 2 is missing, runs 0 and 1 are stacked. -/
theorem missing_file_witness :
    (loadRuns files0 3).1 = (List.range 3).filterMap files0 ∧
    (loadRuns files0 3).2 = (List.range 3).filter (fun r => (files0 r).isNone) :=
  ⟨(missing_run_file_skipped files0 3 10 ⟨0, by decide, by decide⟩).1,
   (missing_run_file_skipped files0 3 10 ⟨0, by decide, by decide⟩).2.1⟩

/-- Witness for C10 with every run file absent. -/
theorem all_missing_witness :
    aggregateData (fun _ => none) 3 = [] ∧
    meanShape (aggregateData (fun _ => none) 3) = [] ∧
    xListOpt 10 (aggregateData (fun _ => none) 3) = none :=
  all_runs_missing_raises (fun _ => none) 3 10 (fun _ _ => rfl)

/-- A concrete singleton experiment batch. -/
def exp0 : Experiment :=
  { env_name := "CartPole-v1"
    num_runs := 2
    num_episodes := some 100
    record_period := 10
    methods := [methodPlain] }

/-- Witness for C7 at the singleton batch `[exp0]`. -/
theorem launcher_witness :
    run [exp0] = some (([exp0].flatMap evaluate).map ProcEvent.start
      ++ ([exp0].flatMap evaluate).map ProcEvent.join) :=
  (launcher_one_process_per_triple [exp0] (by simp)).2.1

end Benchmark
